import Mathlib

/-!
Verification of the two table generators of this repository:
`src/util/generate-case-transform-cpp.py` (case-mapping tables) and
`src/util/generate-html-entities-cpp.py` (named-entity table).

Both scripts are shallowly embedded below.  Python strings become `String`,
Python integers become `Nat` (they are only ever non-negative code points
here), a text file becomes the list of its lines (each already stripped of
its trailing newline, as the loop's `line.rstrip("\n")` does), and the JSON
entity document becomes the iteration-ordered list of its
name/code-point-sequence pairs (`entry["codepoints"]` is the only field the
script reads).  A process run is summarised by the stdout lines, the stderr
lines, and the exit code.  Python builtins used by the scripts
(`str.split`, `str.startswith`, `str.strip`, `int(s, 16)`, `format`,
`str.join`, `list.sort`) are modelled by the executable functions below;
`int(s, 16)` is modelled on the bare hex-digit strings this input format
uses, with `none` standing for the `ValueError` it raises otherwise.
-/

set_option maxRecDepth 8192

/-! ## String helpers (modelled Python builtins) -/

/-- Eta for `String`: rebuilding a string from its character list. -/
theorem str_mk_data (s : String) : String.mk s.data = s := rfl

/-- Characters of an appended string. -/
theorem str_data_append (a b : String) : (a ++ b).data = a.data ++ b.data := rfl

/-- Length of an appended string. -/
theorem str_length_append (a b : String) : (a ++ b).length = a.length + b.length := by
  rw [show (a ++ b).length = (a.data ++ b.data).length from rfl, List.length_append]; rfl

/-- String append is associative. -/
theorem str_append_assoc (a b c : String) : a ++ b ++ c = a ++ (b ++ c) :=
  String.ext (by simp only [str_data_append, List.append_assoc])

/-- Modelled builtin: Python `sep.join(strings)`. -/
def strJoin (sep : String) : List String → String
  | [] => ""
  | [x] => x
  | x :: y :: xs => x ++ sep ++ strJoin sep (y :: xs)

/-- Auxiliary for `pyStartswith`: the first list is a leading segment of the second. -/
def leadsWithAux : List Char → List Char → Bool
  | [], _ => true
  | _ :: _, [] => false
  | p :: ps, c :: cs => p = c && leadsWithAux ps cs

/-- Modelled builtin: Python `s.startswith(p)`. -/
def pyStartswith (s p : String) : Bool := leadsWithAux p.data s.data

/-- Auxiliary for `pySplit`: split a character list on a separator character.
The result is always nonempty; the `[]` branch is unreachable. -/
def splitOnCharAux (sep : Char) : List Char → List (List Char)
  | [] => [[]]
  | c :: rest =>
    match splitOnCharAux sep rest with
    | [] => [[]]
    | h :: t => if c = sep then [] :: h :: t else (c :: h) :: t

/-- Modelled builtin: Python `s.split(sep)` for a one-character separator. -/
def pySplit (sep : Char) (s : String) : List String :=
  (splitOnCharAux sep s.data).map String.mk

/-- Whitespace characters removed by Python `str.strip()` (the ASCII forms,
which are the only ones occurring in the Unicode data files). -/
def isPyWhitespace (c : Char) : Bool :=
  c = ' ' || c = '\t' || c = '\n' || c = '\r' || c = '\x0b' || c = '\x0c'

/-- Modelled builtin: Python `s.strip()`. -/
def pyStrip (s : String) : String :=
  String.mk (((s.data.dropWhile isPyWhitespace).reverse.dropWhile isPyWhitespace).reverse)

/-- Value of one hexadecimal digit character, `none` for a non-digit. -/
def hexDigitVal (c : Char) : Option Nat :=
  if '0' ≤ c ∧ c ≤ '9' then some (c.toNat - 48)
  else if 'a' ≤ c ∧ c ≤ 'f' then some (c.toNat - 87)
  else if 'A' ≤ c ∧ c ≤ 'F' then some (c.toNat - 55)
  else none

/-- Modelled builtin: Python `int(s, 16)` on the bare hex-digit strings used by
the Unicode data files; `none` models the `ValueError` raised on anything else
(signs, `0x` prefixes and underscores do not occur in this input format). -/
def pyIntHex (s : String) : Option Nat :=
  if s.data = [] then none
  else s.data.foldl (fun acc c =>
    match acc, hexDigitVal c with
    | some a, some d => some (16 * a + d)
    | _, _ => none) (some 0)

/-- Uppercase hexadecimal digit character for a value below 16, as produced by
Python's `X` format conversion. -/
def hexUpperDigit (n : Nat) : Char :=
  if n < 10 then Char.ofNat (48 + n) else Char.ofNat (55 + n)

/-- Big-endian uppercase hex digits of `n`, accumulated in front of `acc`.
The fuel argument only bounds the recursion depth; one digit is produced per
step, so any fuel of at least the digit count of `n` gives the digits of `n`. -/
def toHexAux : Nat → Nat → List Char → List Char
  | 0, _, acc => acc
  | _ + 1, 0, acc => acc
  | fuel + 1, n + 1, acc => toHexAux fuel ((n + 1) / 16) (hexUpperDigit ((n + 1) % 16) :: acc)

/-- Modelled builtin: Python `format(n, "X")` — uppercase hex digits with no
leading zeros, and `"0"` for zero. -/
def toHexUpper (n : Nat) : String :=
  if n = 0 then "0" else String.mk (toHexAux n n [])

/-- Modelled builtin: Python `format(n, f"0{width}X")` — `toHexUpper` left-padded
with zeros to at least `width` digits. -/
def padHexUpper (width n : Nat) : String :=
  String.mk (List.replicate (width - (toHexUpper n).length) '0') ++ toHexUpper n

/-- Uppercase hexadecimal digit character predicate. -/
def isUpperHexDigit (c : Char) : Bool :=
  ('0' ≤ c && c ≤ '9') || ('A' ≤ c && c ≤ 'F')

/-! ## The case-mapping generator (`generate-case-transform-cpp.py`) -/

/-- Source: `transformations`. -/
def transformations : List String :=
  ["simple_lower", "simple_upper", "special_lower", "special_upper"]

/-- Source: `to_char_escape` — `\U........` above `0xFFFF`, else `\u....`. -/
def to_char_escape (code_point : Nat) : String :=
  if code_point > 0xFFFF then "\\U" ++ padHexUpper 8 code_point
  else "\\u" ++ padHexUpper 4 code_point

/-- Source: `to_char_literal` — the escape wrapped as `U'...'`. -/
def to_char_literal (code_point : Nat) : String :=
  "U\x27" ++ to_char_escape code_point ++ "\x27"

/-- Source: `format_code_points` — comma-joined character literals. -/
def format_code_points (code_points : List Nat) : String :=
  strJoin "," (code_points.map to_char_literal)

/-- Source: `print_simple` — the one stdout line it prints, `{...,...},`. -/
def print_simple_line (code_point transformed : Nat) : String :=
  "\x7b" ++ format_code_points [code_point, transformed] ++ "\x7d,"

/-- Source: `print_special` — the one stdout line it prints,
`{U'...',U"..."},` with the target escapes concatenated into one string. -/
def print_special_line (code_point : Nat) (transformed : List Nat) : String :=
  "\x7b" ++ to_char_literal code_point ++ "," ++
    ("U\x22" ++ strJoin "" (transformed.map to_char_escape) ++ "\x22") ++ "\x7d,"

/-- Source: the special-casing column parse
`[int(c, 16) for c in field.strip().split(" ")]`; `none` models a
`ValueError` from any piece. -/
def parseHexSeq (field : String) : Option (List Nat) :=
  (pySplit ' ' (pyStrip field)).mapM pyIntHex

/-- Result of one process run: stdout lines, stderr lines, exit code. -/
structure RunOutput where
  out : List String
  err : List String
  exitCode : Nat
deriving DecidableEq

/-- Source: the stderr line of the column-count failure in `main`. -/
def formatErrorMsg (expected actual : Nat) : String :=
  "Expected at least " ++ toString expected ++ " columns, but got " ++ toString actual

/-- Source: the stderr usage line of `main`. -/
def usageMsg (argv0 : String) : String :=
  "Usage: " ++ argv0 ++ " <Data.txt> (" ++ strJoin "|" transformations ++ ")"

/-- Source: the stderr line of `main` for an unrecognized transformation. -/
def invalidTransformationMsg (t : String) : String :=
  "Invalid transformation \x22" ++ t ++ "\x22"

/-- Source: the `match transformation` dispatch in the loop body of `main`,
after `code_point = int(fields[0], 16)` has succeeded.  `ok none`: the record
is skipped; `ok (some line)`: `line` is printed to stdout; `error msgs`: the
run aborts with exit code 1 after `msgs` reach stderr (a `ValueError` from a
hex conversion, or the unreachable `case _: sys.exit(1)` default, which
prints nothing).  Index accesses are total via `getD`; the column-count guard
in `run_lines` keeps every used index in range. -/
def step_emit (transformation : String) (fields : List String) (code_point : Nat) :
    Except (List String) (Option String) :=
  if transformation = "simple_upper" then
    if fields.getD 2 "" = "Ll" ∧ fields.getD 12 "" ≠ "" then
      match pyIntHex (fields.getD 12 "") with
      | none => .error ["ValueError"]
      | some t => .ok (some (print_simple_line code_point t))
    else .ok none
  else if transformation = "simple_lower" then
    if fields.getD 2 "" = "Lu" ∧ fields.getD 13 "" ≠ "" then
      match pyIntHex (fields.getD 13 "") with
      | none => .error ["ValueError"]
      | some t => .ok (some (print_simple_line code_point t))
    else .ok none
  else if transformation = "special_upper" then
    match parseHexSeq (fields.getD 3 "") with
    | none => .error ["ValueError"]
    | some transformed =>
      .ok (if 2 ≤ transformed.length then some (print_special_line code_point transformed)
        else none)
  else if transformation = "special_lower" then
    match parseHexSeq (fields.getD 1 "") with
    | none => .error ["ValueError"]
    | some transformed =>
      .ok (if 2 ≤ transformed.length then some (print_special_line code_point transformed)
        else none)
  else .error []

/-- Source: the `for line in f` loop of `main`.  Blank and `#` lines are
skipped; a record with too few columns aborts with the count message and exit
code 1; in the special modes a record with six or more fields stops the loop
successfully (`break`); otherwise the record is dispatched through
`step_emit` and any printed line is accumulated in input order. -/
def run_lines (transformation : String) (expected_columns : Nat) : List String → RunOutput
  | [] => ⟨[], [], 0⟩
  | line :: rest =>
    if line = "" ∨ pyStartswith line "#" then run_lines transformation expected_columns rest
    else
      let fields := pySplit ';' line
      if fields.length < expected_columns then
        ⟨[], [formatErrorMsg expected_columns fields.length], 1⟩
      else if pyStartswith transformation "special" ∧ 6 ≤ fields.length then
        ⟨[], [], 0⟩
      else
        match pyIntHex (fields.getD 0 "") with
        | none => ⟨[], ["ValueError"], 1⟩
        | some code_point =>
          match step_emit transformation fields code_point with
          | .error msgs => ⟨[], msgs, 1⟩
          | .ok none => run_lines transformation expected_columns rest
          | .ok (some l) =>
            let r := run_lines transformation expected_columns rest
            ⟨l :: r.out, r.err, r.exitCode⟩

/-- Source: `main`.  `argv` includes the program name in position 0; the
input file is given as its list of lines.  A wrong argument count or an
unrecognized transformation name fails before the file is touched. -/
def pymain (argv : List String) (file_lines : List String) : RunOutput :=
  if argv.length ≠ 3 then ⟨[], [usageMsg (argv.getD 0 "")], 1⟩
  else
    let transformation := argv.getD 2 ""
    if transformation ∉ transformations then
      ⟨[], [invalidTransformationMsg transformation], 1⟩
    else
      let expected_columns := if pyStartswith transformation "simple" then 15 else 5
      run_lines transformation expected_columns file_lines

/-! ## The entity generator (`generate-html-entities-cpp.py`) -/

/-- Source (entity program): the literal its `format_code_points` appends for
one code point — the same `\u..../\U........` escape rule, wrapped `U'...'`. -/
def html_code_point_literal (code_point : Nat) : String :=
  if code_point > 0xFFFF then "U\x27\\U" ++ padHexUpper 8 code_point ++ "\x27"
  else "U\x27\\u" ++ padHexUpper 4 code_point ++ "\x27"

/-- Source (entity program): `format_code_points` — comma-joined literals. -/
def html_format_code_points (code_points : List Nat) : String :=
  strJoin "," (code_points.map html_code_point_literal)

/-- Source (entity program): `name[1:-1]` — drop the first and last character. -/
def name_cropped (name : String) : String :=
  String.mk ((name.data.drop 1).dropLast)

/-- Source (entity program): the line appended to `output` for one definition,
`{u8"name",len,{literals}},`. -/
def entity_line (name : String) (codepoints : List Nat) : String :=
  "\x7bu8\x22" ++ name_cropped name ++ "\x22," ++ toString (name_cropped name).length ++
    ",\x7b" ++ html_format_code_points codepoints ++ "\x7d\x7d,"

/-- Source (entity program): `output.sort()`.  Python sorts strings
lexicographically by code point, which is exactly the `LinearOrder` on
`String`; since a comparison sort under a total order returns the unique
sorted permutation of its input, `insertionSort` models `list.sort`. -/
def sortLines (lines : List String) : List String :=
  List.insertionSort (fun a b => a ≤ b) lines

/-- Source (entity program): the five `print` calls, in order.  The third is
the sorted entry lines joined with newlines. -/
def html_printed (data : List (String × List Nat)) : List String :=
  ["// NOLINTBEGIN", "// clang-format off",
    strJoin "\n" (sortLines (data.map fun p => entity_line p.1 p.2)),
    "// clang-format on", "// NOLINTEND"]

/-- The full stdout stream of the entity program: each `print` call emits its
argument followed by one newline. -/
def html_full_output (data : List (String × List Nat)) : String :=
  strJoin "" ((html_printed data).map fun l => l ++ "\n")

/-! ## Facts about the hex formatting -/

/-- Digits below 16 render as uppercase hexadecimal digit characters. -/
theorem hexUpperDigit_isHex : ∀ m : Nat, m < 16 → isUpperHexDigit (hexUpperDigit m) := by decide

/-- The accumulator grows by at most one digit per division by 16, so a number
below `16 ^ k` contributes at most `k` characters. -/
theorem toHexAux_length_le : ∀ fuel n k acc, n < 16 ^ k →
    (toHexAux fuel n acc).length ≤ k + acc.length := by
  intro fuel
  induction fuel with
  | zero => intro n k acc _; simp [toHexAux]
  | succ f ih =>
    intro n k acc h
    match n with
    | 0 => simp [toHexAux]
    | m + 1 =>
      have hk : k ≠ 0 := by
        intro hk0
        rw [hk0, pow_zero] at h
        omega
      obtain ⟨k', rfl⟩ : ∃ k', k = k' + 1 := ⟨k - 1, by omega⟩
      have hdiv : (m + 1) / 16 < 16 ^ k' := by
        apply Nat.div_lt_of_lt_mul
        calc m + 1 < 16 ^ (k' + 1) := h
          _ = 16 * 16 ^ k' := by ring
      have := ih ((m + 1) / 16) k' (hexUpperDigit ((m + 1) % 16) :: acc) hdiv
      simp only [toHexAux]
      simp only [List.length_cons] at this
      omega

/-- Every character `toHexAux` puts in front of a hex-digit accumulator is an
uppercase hex digit. -/
theorem toHexAux_all_hex : ∀ fuel n acc, acc.all isUpperHexDigit →
    (toHexAux fuel n acc).all isUpperHexDigit := by
  intro fuel
  induction fuel with
  | zero => intro n acc h; simpa [toHexAux] using h
  | succ f ih =>
    intro n acc h
    match n with
    | 0 => simpa [toHexAux] using h
    | m + 1 =>
      simp only [toHexAux]
      apply ih
      simp only [List.all_cons, Bool.and_eq_true]
      exact ⟨hexUpperDigit_isHex _ (Nat.mod_lt _ (by norm_num)), h⟩

/-- A number below `16 ^ k` (with `k` positive) renders in at most `k` digits. -/
theorem toHexUpper_length_le (n k : Nat) (hk : 0 < k) (h : n < 16 ^ k) :
    (toHexUpper n).length ≤ k := by
  unfold toHexUpper
  split
  · simpa [String.length] using hk
  · have := toHexAux_length_le n n k [] h
    simpa [String.length] using this

/-- All characters of `toHexUpper` are uppercase hex digits. -/
theorem toHexUpper_all_hex (n : Nat) : (toHexUpper n).data.all isUpperHexDigit := by
  unfold toHexUpper
  split
  · decide
  · exact toHexAux_all_hex n n [] (by decide)

/-- Zero-padding to `width` yields exactly `width` characters whenever the
value fits in `width` digits. -/
theorem padHexUpper_length (width n : Nat) (hw : 0 < width) (h : n < 16 ^ width) :
    (padHexUpper width n).length = width := by
  have hle := toHexUpper_length_le n width hw h
  unfold padHexUpper
  rw [str_length_append]
  simp only [String.length, String.length_mk, List.length_replicate] at *
  omega

/-- All characters of the zero-padded rendering are uppercase hex digits. -/
theorem padHexUpper_all_hex (width n : Nat) :
    (padHexUpper width n).data.all isUpperHexDigit := by
  unfold padHexUpper
  rw [str_data_append]
  simp only [List.all_append, Bool.and_eq_true]
  constructor
  · simp only [String.mk, List.all_eq_true]
    intro c hc
    rw [List.eq_of_mem_replicate hc]
    decide
  · exact toHexUpper_all_hex n

/-- C1: every code point rendered by either generator escapes as `\u` plus
exactly 4 uppercase hex digits when at most `0xFFFF` and as `\U` plus exactly
8 uppercase hex digits above that; `0x41` renders as `A`, `0x1F600` as
`\U0001F600`, and the entity generator's inline rule produces exactly the
case generator's `to_char_literal` at every code point, so the rule is
identical at every call site of both programs. -/
theorem to_char_escape_shape (cp : Nat) (h : cp < 4294967296) :
    html_code_point_literal cp = "U\x27" ++ to_char_escape cp ++ "\x27" ∧
    html_code_point_literal cp = to_char_literal cp ∧
    (cp ≤ 0xFFFF → ∃ ds : List Char,
      to_char_escape cp = "\\u" ++ String.mk ds ∧ ds.length = 4 ∧ ds.all isUpperHexDigit) ∧
    (0xFFFF < cp → ∃ ds : List Char,
      to_char_escape cp = "\\U" ++ String.mk ds ∧ ds.length = 8 ∧ ds.all isUpperHexDigit) ∧
    to_char_escape 0x41 = "\\u0041" ∧ to_char_escape 0x1F600 = "\\U0001F600" := by
  have hlit : html_code_point_literal cp = "U\x27" ++ to_char_escape cp ++ "\x27" := by
    unfold html_code_point_literal to_char_escape
    split
    · rw [str_append_assoc]
      rfl
    · rw [str_append_assoc]
      rfl
  refine ⟨hlit, hlit, ?_, ?_, by decide, by decide⟩
  · intro hle
    refine ⟨(padHexUpper 4 cp).data, ?_, ?_, ?_⟩
    · unfold to_char_escape
      rw [if_neg (by omega), str_mk_data]
    · have : cp < 16 ^ 4 := by norm_num; omega
      exact padHexUpper_length 4 cp (by norm_num) this
    · exact padHexUpper_all_hex 4 cp
  · intro hgt
    refine ⟨(padHexUpper 8 cp).data, ?_, ?_, ?_⟩
    · unfold to_char_escape
      rw [if_pos (by omega), str_mk_data]
    · have : cp < 16 ^ 8 := by norm_num; omega
      exact padHexUpper_length 8 cp (by norm_num) this
    · exact padHexUpper_all_hex 8 cp

/-- C1 witness at the emoji code point `0x1F600`. -/
theorem to_char_escape_shape_witness :
    html_code_point_literal 128512 = "U\x27" ++ to_char_escape 128512 ++ "\x27" ∧
    html_code_point_literal 128512 = to_char_literal 128512 ∧
    (128512 ≤ 0xFFFF → ∃ ds : List Char,
      to_char_escape 128512 = "\\u" ++ String.mk ds ∧ ds.length = 4 ∧ ds.all isUpperHexDigit) ∧
    (0xFFFF < 128512 → ∃ ds : List Char,
      to_char_escape 128512 = "\\U" ++ String.mk ds ∧ ds.length = 8 ∧ ds.all isUpperHexDigit) ∧
    to_char_escape 0x41 = "\\u0041" ∧ to_char_escape 0x1F600 = "\\U0001F600" :=
  to_char_escape_shape 128512 (by decide)

/-- Characters of the empty string. -/
theorem str_data_empty : ("" : String).data = [] := rfl

/-! ## Claims about the rendered line shapes and the entity builder -/

/-- C7: the entity builder removes exactly the first and the last character of
the delimited name, records the character count of the trimmed name as the
length, and copies the code-point sequence unchanged into the rendered entry,
for every delimited name and every sequence (no length validation). -/
theorem entity_builder_crop_spec (name : String) (codepoints : List Nat)
    (c0 c1 : Char) (mid : List Char) (h : name.data = c0 :: (mid ++ [c1])) :
    name_cropped name = String.mk mid ∧
    (name_cropped name).length = name.length - 2 ∧
    entity_line name codepoints =
      "\x7bu8\x22" ++ String.mk mid ++ "\x22," ++ toString mid.length ++
        ",\x7b" ++ html_format_code_points codepoints ++ "\x7d\x7d," := by
  have hcrop : name_cropped name = String.mk mid := by
    unfold name_cropped
    rw [h]
    simp [List.dropLast_concat]
  refine ⟨hcrop, ?_, ?_⟩
  · rw [hcrop]
    show mid.length = name.data.length - 2
    rw [h]
    simp
  · unfold entity_line
    rw [hcrop]
    rfl

/-- C7 witness at the `&amp;` definition. -/
theorem entity_builder_crop_spec_witness :
    name_cropped "&amp;" = String.mk ['a', 'm', 'p'] ∧
    (name_cropped "&amp;").length = ("&amp;" : String).length - 2 ∧
    entity_line "&amp;" [38] =
      "\x7bu8\x22" ++ String.mk ['a', 'm', 'p'] ++ "\x22," ++ toString (['a', 'm', 'p'] : List Char).length ++
        ",\x7b" ++ html_format_code_points [38] ++ "\x7d\x7d," :=
  entity_builder_crop_spec "&amp;" [38] '&' ';' ['a', 'm', 'p'] (by decide)

/-- C8 counterexample: the line emitted for Scenario A is not the bare literal
`{U'A',U'a'}` — the program prints a trailing comma after it. -/
theorem emitted_line_trailing_comma_cex :
    print_simple_line 0x41 0x61 ≠ "\x7bU\x27\\u0041\x27,U\x27\\u0061\x27\x7d" := by decide

/-- C8 amended: each emitted entry occupies exactly one output line whose text
is the spec's literal followed by a trailing comma: a simple mapping renders
as `{<from-literal>,<to-literal>},`, so Scenario A emits
`{U'A',U'a'},` and the Scenario C entity emits
`{u8"amp",3,{U'&'}},`. -/
theorem emitted_line_shapes :
    (∀ cp tr : Nat, print_simple_line cp tr =
      "\x7b" ++ to_char_literal cp ++ "," ++ to_char_literal tr ++ "\x7d,") ∧
    print_simple_line 0x41 0x61 = "\x7bU\x27\\u0041\x27,U\x27\\u0061\x27\x7d," ∧
    entity_line "&amp;" [38] = "\x7bu8\x22amp\x22,3,\x7bU\x27\\u0026\x27\x7d\x7d," := by
  refine ⟨fun cp tr => ?_, by decide, by decide⟩
  apply String.ext
  simp only [print_simple_line, format_code_points, List.map, strJoin, str_data_append,
    List.append_assoc]

/-- C9: an invocation whose transformation argument is not one of the four
recognized names reports the invalid-transformation diagnostic, exits with
code 1, and produces no output; the result does not depend on the input file,
which is therefore never read. -/
theorem unknown_mode_rejected_before_input (prog path t : String)
    (ht : t ∉ transformations) (file_lines : List String) :
    pymain [prog, path, t] file_lines = ⟨[], [invalidTransformationMsg t], 1⟩ := by
  unfold pymain
  rw [if_neg (by simp)]
  simp only [show ([prog, path, t].getD 2 "") = t from rfl]
  rw [if_pos ht]

/-- C9 witness at the unrecognized mode name `upper`. -/
theorem unknown_mode_rejected_before_input_witness :
    pymain ["generate-case-transform-cpp.py", "UnicodeData.txt", "upper"] ["0041;A;Lu"] =
      ⟨[], [invalidTransformationMsg "upper"], 1⟩ :=
  unknown_mode_rejected_before_input "generate-case-transform-cpp.py" "UnicodeData.txt" "upper"
    (by decide) ["0041;A;Lu"]

/-- The sort returns a permutation of its input. -/
theorem sortLines_perm (l : List String) : (sortLines l).Perm l :=
  List.perm_insertionSort _ l

/-- The sort returns a lexicographically sorted list. -/
theorem sortLines_sorted (l : List String) : List.Sorted (fun a b => a ≤ b) (sortLines l) :=
  List.sorted_insertionSort _ l

/-- Sorting depends only on the multiset of lines. -/
theorem sortLines_perm_eq (l1 l2 : List String) (h : l1.Perm l2) : sortLines l1 = sortLines l2 :=
  List.eq_of_perm_of_sorted (((sortLines_perm l1).trans h).trans (sortLines_perm l2).symm)
    (sortLines_sorted l1) (sortLines_sorted l2)

/-- C10: for every input document, the entity generator's stdout stream starts
with the two fixed lines `// NOLINTBEGIN` and `// clang-format off` and ends
with the two fixed lines `// clang-format on` and `// NOLINTEND`; strictly
between them sits the block of entry lines, which is a sorted permutation of
the rendered entries — the wrapper lines never take part in the sort. -/
theorem html_wrapper_fixed_lines (data : List (String × List Nat)) :
    ∃ mid : List String,
      html_full_output data =
        ("// NOLINTBEGIN" ++ "\n") ++ ("// clang-format off" ++ "\n") ++
          (strJoin "\n" mid ++ "\n") ++ ("// clang-format on" ++ "\n") ++
          ("// NOLINTEND" ++ "\n") ∧
      mid.Perm (data.map fun p => entity_line p.1 p.2) ∧
      List.Sorted (fun a b => a ≤ b) mid := by
  refine ⟨sortLines (data.map fun p => entity_line p.1 p.2), ?_, ?_, ?_⟩
  · unfold html_full_output html_printed
    generalize strJoin "\n" (sortLines (data.map fun p => entity_line p.1 p.2)) = m
    apply String.ext
    simp only [List.map_cons, List.map_nil, strJoin, str_data_append, str_data_empty,
      List.append_assoc, List.append_nil, List.nil_append]
  · exact sortLines_perm _
  · exact sortLines_sorted _

/-- C2: the entity generator sorts the fully rendered entry lines before
writing, so two input documents holding the same entries in different
iteration orders produce byte-identical complete output streams. -/
theorem html_output_independent_of_order (d1 d2 : List (String × List Nat))
    (h : d1.Perm d2) : html_full_output d1 = html_full_output d2 := by
  have hsorted : sortLines (d1.map fun p => entity_line p.1 p.2) =
      sortLines (d2.map fun p => entity_line p.1 p.2) :=
    sortLines_perm_eq _ _ (h.map _)
  unfold html_full_output html_printed
  rw [hsorted]

/-- C2 witness: two two-entry documents in opposite iteration orders. -/
theorem html_output_independent_of_order_witness :
    html_full_output [("&alpha;", [945]), ("&beta;", [946])] =
      html_full_output [("&beta;", [946]), ("&alpha;", [945])] :=
  html_output_independent_of_order _ _ (List.Perm.swap _ _ _)

/-! ## Claims about the case-mapping run -/

/-- The loop consumes every line of the list and keeps going: no line aborts
the run (column-count failure or exception) and no line triggers the
special-mode break.  This is the condition under which `run_lines` continues
into whatever follows the list; it mirrors the branch structure of
`run_lines`. -/
def completes (transformation : String) (expected_columns : Nat) : List String → Bool
  | [] => true
  | line :: rest =>
    if line = "" ∨ pyStartswith line "#" then completes transformation expected_columns rest
    else if (pySplit ';' line).length < expected_columns then false
    else if pyStartswith transformation "special" ∧ 6 ≤ (pySplit ';' line).length then false
    else
      match pyIntHex ((pySplit ';' line).getD 0 "") with
      | none => false
      | some code_point =>
        match step_emit transformation (pySplit ';' line) code_point with
        | .error _ => false
        | .ok _ => completes transformation expected_columns rest

/-- Runs compose across a fully consumed prefix: the prefix contributes its
stdout lines in front, and stderr and the exit code come from the rest. -/
theorem run_lines_append (t : String) (e : Nat) (pre rest : List String)
    (h : completes t e pre = true) :
    run_lines t e (pre ++ rest) =
      ⟨(run_lines t e pre).out ++ (run_lines t e rest).out,
        (run_lines t e rest).err, (run_lines t e rest).exitCode⟩ := by
  induction pre with
  | nil => rfl
  | cons line pre ih =>
    unfold completes at h
    by_cases hskip : line = "" ∨ pyStartswith line "#"
    · rw [if_pos hskip] at h
      simp only [List.cons_append, run_lines, if_pos hskip]
      exact ih h
    · rw [if_neg hskip] at h
      by_cases hcnt : (pySplit ';' line).length < e
      · rw [if_pos hcnt] at h
        simp at h
      · rw [if_neg hcnt] at h
        by_cases hbreak : pyStartswith t "special" ∧ 6 ≤ (pySplit ';' line).length
        · rw [if_pos hbreak] at h
          simp at h
        · rw [if_neg hbreak] at h
          split at h
          · simp at h
          · rename_i code_point hcp
            split at h
            · simp at h
            · rename_i o hstep
              cases o with
              | none =>
                simp only [List.cons_append, run_lines, if_neg hskip, if_neg hcnt,
                  if_neg hbreak, hcp, hstep]
                exact ih h
              | some l =>
                simp only [List.cons_append, run_lines, if_neg hskip, if_neg hcnt,
                  if_neg hbreak, hcp, hstep, List.append_eq]
                rw [ih h]

/-- C3 counterexample: a malformed second record aborts the run with the
count message and exit code 1, but the entry printed for the preceding
well-formed record has already been written — stdout is not empty. -/
theorem partial_output_before_format_error_cex :
    pymain ["generate-case-transform-cpp.py", "UnicodeData.txt", "simple_upper"]
      ["0061;LATIN SMALL LETTER A;Ll;0;L;;;;;N;;;0041;;", "0041"] =
      ⟨["\x7bU\x27\\u0061\x27,U\x27\\u0041\x27\x7d,"],
        ["Expected at least 15 columns, but got 1"], 1⟩ ∧
    (pymain ["generate-case-transform-cpp.py", "UnicodeData.txt", "simple_upper"]
      ["0061;LATIN SMALL LETTER A;Ll;0;L;;;;;N;;;0041;;", "0041"]).out ≠ [] :=
  ⟨by decide, by decide⟩

/-- C3 amended: in every run whose lines are any fully processed prefix, then
a non-blank, non-comment record with fewer fields than the active mode's
minimum, then anything at all, the run reports the expected and actual field
counts on stderr and exits with code 1; neither the offending record nor any
later line contributes an entry, while the entries emitted for the qualifying
records of the prefix have already been written and remain as the entire
stdout. -/
theorem format_error_aborts_from_offending_record (prog path t rec : String)
    (pre post : List String) (ht : t ∈ transformations)
    (hpre : completes t (if pyStartswith t "simple" then 15 else 5) pre = true)
    (hne : rec ≠ "") (hnc : pyStartswith rec "#" = false)
    (hcount : (pySplit ';' rec).length < (if pyStartswith t "simple" then 15 else 5)) :
    pymain [prog, path, t] (pre ++ rec :: post) =
      ⟨(run_lines t (if pyStartswith t "simple" then 15 else 5) pre).out,
        [formatErrorMsg (if pyStartswith t "simple" then 15 else 5)
          (pySplit ';' rec).length], 1⟩ := by
  have hsuffix : run_lines t (if pyStartswith t "simple" then 15 else 5) (rec :: post) =
      ⟨[], [formatErrorMsg (if pyStartswith t "simple" then 15 else 5)
        (pySplit ';' rec).length], 1⟩ := by
    simp only [run_lines]
    rw [if_neg (by simp [hne, hnc])]
    rw [if_pos hcount]
  unfold pymain
  rw [if_neg (by simp)]
  simp only [show ([prog, path, t].getD 2 "") = t from rfl]
  rw [if_neg (fun hn => hn ht)]
  rw [run_lines_append t (if pyStartswith t "simple" then 15 else 5) pre (rec :: post) hpre]
  rw [hsuffix]
  simp

/-- C3 amended witness: a qualifying record, then a four-field record, then a
further well-formed record, in a fifteen-column mode; the first record's
entry is retained as the whole stdout. -/
theorem format_error_aborts_from_offending_record_witness :
    pymain ["generate-case-transform-cpp.py", "UnicodeData.txt", "simple_upper"]
      (["0061;LATIN SMALL LETTER A;Ll;0;L;;;;;N;;;0041;;"] ++ "0041;A;Lu;0041" ::
        ["0062;LATIN SMALL LETTER B;Ll;0;L;;;;;N;;;0042;;"]) =
      ⟨(run_lines "simple_upper" (if pyStartswith "simple_upper" "simple" then 15 else 5)
          ["0061;LATIN SMALL LETTER A;Ll;0;L;;;;;N;;;0041;;"]).out,
        [formatErrorMsg (if pyStartswith "simple_upper" "simple" then 15 else 5)
          (pySplit ';' "0041;A;Lu;0041").length], 1⟩ :=
  format_error_aborts_from_offending_record "generate-case-transform-cpp.py" "UnicodeData.txt"
    "simple_upper" "0041;A;Lu;0041" ["0061;LATIN SMALL LETTER A;Ll;0;L;;;;;N;;;0041;;"]
    ["0062;LATIN SMALL LETTER B;Ll;0;L;;;;;N;;;0042;;"]
    (by decide) (by decide) (by decide) (by decide) (by decide)

/-- C4: in the special modes, a record with six or more fields stops
processing successfully: the run ends with exit code 0, no diagnostic, and no
entry for that record or for any later line, whatever those later lines
hold. -/
theorem special_break_stops (prog path t rec : String) (post : List String)
    (ht : t = "special_lower" ∨ t = "special_upper") (hne : rec ≠ "")
    (hnc : pyStartswith rec "#" = false) (h6 : 6 ≤ (pySplit ';' rec).length) :
    pymain [prog, path, t] (rec :: post) = ⟨[], [], 0⟩ := by
  have hmem : t ∈ transformations := by
    rcases ht with h | h <;> rw [h] <;> decide
  have hsimple : pyStartswith t "simple" = false := by
    rcases ht with h | h <;> rw [h] <;> decide
  have hspecial : pyStartswith t "special" = true := by
    rcases ht with h | h <;> rw [h] <;> decide
  unfold pymain
  rw [if_neg (by simp)]
  simp only [show ([prog, path, t].getD 2 "") = t from rfl]
  rw [if_neg (fun hn => hn hmem)]
  rw [hsimple]
  simp only [Bool.false_eq_true, if_false]
  simp only [run_lines]
  rw [if_neg (by simp [hne, hnc])]
  rw [if_neg (by omega)]
  rw [if_pos ⟨hspecial, h6⟩]

/-- C4 witness: a six-field record followed by a well-formed special record
that would otherwise qualify. -/
theorem special_break_stops_witness :
    pymain ["generate-case-transform-cpp.py", "SpecialCasing.txt", "special_upper"]
      ["0130;0069 0307;0130;0130; # cond;", "00DF;00DF;00DF;0053 0073;"] = ⟨[], [], 0⟩ :=
  special_break_stops "generate-case-transform-cpp.py" "SpecialCasing.txt" "special_upper"
    "0130;0069 0307;0130;0130; # cond;" ["00DF;00DF;00DF;0053 0073;"]
    (Or.inr rfl) (by decide) (by decide) (by decide)

/-! ## Claims about the per-record dispatch -/

/-- C5: in mode `simple_upper` an accepted record emits a simple mapping
exactly when its category field (column 2) is `Ll` and column 12 is
non-empty, the target being the hexadecimal value of column 12; records
failing the gate are skipped silently.  Symmetrically, `simple_lower` gates
on category `Lu` and column 13.  The hypotheses state that the gated column
holds valid hexadecimal whenever the gate passes, as every record of the
Unicode data format does. -/
theorem simple_mode_gate_iff (fields : List String) (code_point : Nat)
    (hup : fields.getD 2 "" = "Ll" → fields.getD 12 "" ≠ "" →
      (pyIntHex (fields.getD 12 "")).isSome)
    (hlo : fields.getD 2 "" = "Lu" → fields.getD 13 "" ≠ "" →
      (pyIntHex (fields.getD 13 "")).isSome) :
    ((∃ l, step_emit "simple_upper" fields code_point = .ok (some l)) ↔
      fields.getD 2 "" = "Ll" ∧ fields.getD 12 "" ≠ "") ∧
    (∀ v, fields.getD 2 "" = "Ll" → fields.getD 12 "" ≠ "" →
      pyIntHex (fields.getD 12 "") = some v →
      step_emit "simple_upper" fields code_point =
        .ok (some (print_simple_line code_point v))) ∧
    (¬ (fields.getD 2 "" = "Ll" ∧ fields.getD 12 "" ≠ "") →
      step_emit "simple_upper" fields code_point = .ok none) ∧
    ((∃ l, step_emit "simple_lower" fields code_point = .ok (some l)) ↔
      fields.getD 2 "" = "Lu" ∧ fields.getD 13 "" ≠ "") ∧
    (∀ v, fields.getD 2 "" = "Lu" → fields.getD 13 "" ≠ "" →
      pyIntHex (fields.getD 13 "") = some v →
      step_emit "simple_lower" fields code_point =
        .ok (some (print_simple_line code_point v))) ∧
    (¬ (fields.getD 2 "" = "Lu" ∧ fields.getD 13 "" ≠ "") →
      step_emit "simple_lower" fields code_point = .ok none) := by
  have hU : step_emit "simple_upper" fields code_point =
      (if fields.getD 2 "" = "Ll" ∧ fields.getD 12 "" ≠ "" then
        match pyIntHex (fields.getD 12 "") with
        | none => .error ["ValueError"]
        | some t => .ok (some (print_simple_line code_point t))
      else .ok none) := by
    unfold step_emit
    rw [if_pos rfl]
  have hL : step_emit "simple_lower" fields code_point =
      (if fields.getD 2 "" = "Lu" ∧ fields.getD 13 "" ≠ "" then
        match pyIntHex (fields.getD 13 "") with
        | none => .error ["ValueError"]
        | some t => .ok (some (print_simple_line code_point t))
      else .ok none) := by
    unfold step_emit
    rw [if_neg (by decide), if_pos rfl]
  refine ⟨⟨?_, ?_⟩, ?_, ?_, ⟨?_, ?_⟩, ?_, ?_⟩
  · rintro ⟨l, hl⟩
    by_contra hgn
    rw [hU, if_neg hgn] at hl
    simp at hl
  · intro hg
    obtain ⟨v, hv⟩ := Option.isSome_iff_exists.mp (hup hg.1 hg.2)
    exact ⟨print_simple_line code_point v, by rw [hU, if_pos hg, hv]⟩
  · intro v h2 h12 hv
    rw [hU, if_pos ⟨h2, h12⟩, hv]
  · intro hgn
    rw [hU, if_neg hgn]
  · rintro ⟨l, hl⟩
    by_contra hgn
    rw [hL, if_neg hgn] at hl
    simp at hl
  · intro hg
    obtain ⟨v, hv⟩ := Option.isSome_iff_exists.mp (hlo hg.1 hg.2)
    exact ⟨print_simple_line code_point v, by rw [hL, if_pos hg, hv]⟩
  · intro v h2 h13 hv
    rw [hL, if_pos ⟨h2, h13⟩, hv]
  · intro hgn
    rw [hL, if_neg hgn]

/-- C6: in the special modes a processed record's target sequence is the
designated column (column 3 for `special_upper`, column 1 for
`special_lower`) split on spaces with each piece read as hexadecimal, and a
special mapping is emitted exactly when that sequence has length at least
2 — a shorter sequence is never emitted. -/
theorem special_mode_gate_iff (fields : List String) (code_point : Nat)
    (seqU seqL : List Nat)
    (hU : parseHexSeq (fields.getD 3 "") = some seqU)
    (hL : parseHexSeq (fields.getD 1 "") = some seqL) :
    step_emit "special_upper" fields code_point =
      .ok (if 2 ≤ seqU.length then some (print_special_line code_point seqU) else none) ∧
    step_emit "special_lower" fields code_point =
      .ok (if 2 ≤ seqL.length then some (print_special_line code_point seqL) else none) ∧
    ((∃ l, step_emit "special_upper" fields code_point = .ok (some l)) ↔ 2 ≤ seqU.length) ∧
    ((∃ l, step_emit "special_lower" fields code_point = .ok (some l)) ↔ 2 ≤ seqL.length) := by
  have h1 : step_emit "special_upper" fields code_point =
      .ok (if 2 ≤ seqU.length then some (print_special_line code_point seqU) else none) := by
    unfold step_emit
    rw [if_neg (by decide), if_neg (by decide), if_pos rfl, hU]
  have h2 : step_emit "special_lower" fields code_point =
      .ok (if 2 ≤ seqL.length then some (print_special_line code_point seqL) else none) := by
    unfold step_emit
    rw [if_neg (by decide), if_neg (by decide), if_neg (by decide), if_pos rfl, hL]
  refine ⟨h1, h2, ⟨?_, ?_⟩, ⟨?_, ?_⟩⟩
  · rintro ⟨l, hl⟩
    by_contra hn
    rw [h1, if_neg hn] at hl
    simp at hl
  · intro hlen
    exact ⟨print_special_line code_point seqU, by rw [h1, if_pos hlen]⟩
  · rintro ⟨l, hl⟩
    by_contra hn
    rw [h2, if_neg hn] at hl
    simp at hl
  · intro hlen
    exact ⟨print_special_line code_point seqL, by rw [h2, if_pos hlen]⟩

/-- C5 witness at the record of LATIN SMALL LETTER A. -/
theorem simple_mode_gate_iff_witness :
    ((∃ l, step_emit "simple_upper"
        ["0061", "LATIN SMALL LETTER A", "Ll", "0", "L", "", "", "", "", "N", "", "", "0041",
          "", ""] 97 = .ok (some l)) ↔
      (["0061", "LATIN SMALL LETTER A", "Ll", "0", "L", "", "", "", "", "N", "", "", "0041",
          "", ""].getD 2 "" = "Ll" ∧
        ["0061", "LATIN SMALL LETTER A", "Ll", "0", "L", "", "", "", "", "N", "", "", "0041",
          "", ""].getD 12 "" ≠ "")) ∧
    (∀ v, ["0061", "LATIN SMALL LETTER A", "Ll", "0", "L", "", "", "", "", "N", "", "", "0041",
          "", ""].getD 2 "" = "Ll" →
      ["0061", "LATIN SMALL LETTER A", "Ll", "0", "L", "", "", "", "", "N", "", "", "0041",
          "", ""].getD 12 "" ≠ "" →
      pyIntHex (["0061", "LATIN SMALL LETTER A", "Ll", "0", "L", "", "", "", "", "N", "", "",
          "0041", "", ""].getD 12 "") = some v →
      step_emit "simple_upper"
        ["0061", "LATIN SMALL LETTER A", "Ll", "0", "L", "", "", "", "", "N", "", "", "0041",
          "", ""] 97 = .ok (some (print_simple_line 97 v))) ∧
    (¬ (["0061", "LATIN SMALL LETTER A", "Ll", "0", "L", "", "", "", "", "N", "", "", "0041",
          "", ""].getD 2 "" = "Ll" ∧
        ["0061", "LATIN SMALL LETTER A", "Ll", "0", "L", "", "", "", "", "N", "", "", "0041",
          "", ""].getD 12 "" ≠ "") →
      step_emit "simple_upper"
        ["0061", "LATIN SMALL LETTER A", "Ll", "0", "L", "", "", "", "", "N", "", "", "0041",
          "", ""] 97 = .ok none) ∧
    ((∃ l, step_emit "simple_lower"
        ["0061", "LATIN SMALL LETTER A", "Ll", "0", "L", "", "", "", "", "N", "", "", "0041",
          "", ""] 97 = .ok (some l)) ↔
      (["0061", "LATIN SMALL LETTER A", "Ll", "0", "L", "", "", "", "", "N", "", "", "0041",
          "", ""].getD 2 "" = "Lu" ∧
        ["0061", "LATIN SMALL LETTER A", "Ll", "0", "L", "", "", "", "", "N", "", "", "0041",
          "", ""].getD 13 "" ≠ "")) ∧
    (∀ v, ["0061", "LATIN SMALL LETTER A", "Ll", "0", "L", "", "", "", "", "N", "", "", "0041",
          "", ""].getD 2 "" = "Lu" →
      ["0061", "LATIN SMALL LETTER A", "Ll", "0", "L", "", "", "", "", "N", "", "", "0041",
          "", ""].getD 13 "" ≠ "" →
      pyIntHex (["0061", "LATIN SMALL LETTER A", "Ll", "0", "L", "", "", "", "", "N", "", "",
          "0041", "", ""].getD 13 "") = some v →
      step_emit "simple_lower"
        ["0061", "LATIN SMALL LETTER A", "Ll", "0", "L", "", "", "", "", "N", "", "", "0041",
          "", ""] 97 = .ok (some (print_simple_line 97 v))) ∧
    (¬ (["0061", "LATIN SMALL LETTER A", "Ll", "0", "L", "", "", "", "", "N", "", "", "0041",
          "", ""].getD 2 "" = "Lu" ∧
        ["0061", "LATIN SMALL LETTER A", "Ll", "0", "L", "", "", "", "", "N", "", "", "0041",
          "", ""].getD 13 "" ≠ "") →
      step_emit "simple_lower"
        ["0061", "LATIN SMALL LETTER A", "Ll", "0", "L", "", "", "", "", "N", "", "", "0041",
          "", ""] 97 = .ok none) :=
  simple_mode_gate_iff
    ["0061", "LATIN SMALL LETTER A", "Ll", "0", "L", "", "", "", "", "N", "", "", "0041",
      "", ""] 97 (by decide) (by decide)

/-- C6 witness at the record of LATIN SMALL LETTER SHARP S. -/
theorem special_mode_gate_iff_witness :
    step_emit "special_upper" ["00DF", "00DF", "", "0053 0073", ""] 223 =
      .ok (if 2 ≤ ([83, 115] : List Nat).length then some (print_special_line 223 [83, 115])
        else none) ∧
    step_emit "special_lower" ["00DF", "00DF", "", "0053 0073", ""] 223 =
      .ok (if 2 ≤ ([223] : List Nat).length then some (print_special_line 223 [223])
        else none) ∧
    ((∃ l, step_emit "special_upper" ["00DF", "00DF", "", "0053 0073", ""] 223 =
      .ok (some l)) ↔ 2 ≤ ([83, 115] : List Nat).length) ∧
    ((∃ l, step_emit "special_lower" ["00DF", "00DF", "", "0053 0073", ""] 223 =
      .ok (some l)) ↔ 2 ≤ ([223] : List Nat).length) :=
  special_mode_gate_iff ["00DF", "00DF", "", "0053 0073", ""] 223 [83, 115] [223]
    (by decide) (by decide)
